import Mathlib

/-!
Verification of the CEN (Camera Event Notifier) core pipeline.

Shallow embedding of:
- `src/cen/core/motion.py` — `MotionDetector.detect_events`: frame-differencing
  motion sampler producing `MotionEvent`s;
- `src/cen/cli/main.py` — the `monitor` loop (throttle gate, anomaly
  classification, running statistics) and the `send_summary` background tick;
- `src/cen/core/gmail.py` — `GmailClient` credential lifecycle (keyring / file /
  environment backends, refresh policy, local-server port scanning).

External collaborators (OpenCV, the OAuth library, the Gmail transport, the OS
keyring, the wall clock) are modelled as explicit oracle parameters; everything
the Python code itself computes is translated directly.
-/

namespace CEN

/-! ## Motion detection (`src/cen/core/motion.py`)

Frames are opaque identifiers (`Nat`).  `cv2.cvtColor(..., COLOR_BGR2GRAY)` is
an oracle `grayOf : Frame → Gray`, and the composite
`absdiff → threshold → findContours → contourArea` pipeline between the stored
previous grayscale frame and the current one is an oracle
`contoursOf : Gray → Gray → List Nat` returning the contour areas (the Python
code truncates each float area with `int(...)` before summing; areas are
therefore modelled as naturals, as in the spec's data model).  A capture
iteration's `cap.read()` result is `Option Frame` (`none` = read failure, which
the code handles by sleeping and retrying without touching any state). -/

abbrev Frame := Nat
abbrev Gray := Nat

/-- `MotionEvent` from `src/cen/core/motion.py` (the `timestamp` and
`last_notified_at` fields play no role in the monitor loop, which reads the
wall clock directly; the dataclass fields used downstream are kept). -/
structure MotionEvent where
  frame : Option Frame
  motion_area : Nat
  num_contours : Nat
deriving Repr, DecidableEq

/-- The contours that qualify in one iteration of `detect_events`:
`area >= self.min_contour_area`. -/
def qualifying (min_contour_area : Nat) (areas : List Nat) : List Nat :=
  areas.filter (fun a => decide (min_contour_area ≤ a))

/-- One iteration of the `while True:` body of `MotionDetector.detect_events`.
State is `prev_gray : Option Gray`; the result is the new state and the
emitted event, if any (`yield` iff `total_area > 0`). -/
def detect_step (grayOf : Frame → Gray) (contoursOf : Gray → Gray → List Nat)
    (min_contour_area : Nat) (prev_gray : Option Gray) (cap : Option Frame) :
    Option Gray × Option MotionEvent :=
  match cap with
  | none => (prev_gray, none)
  | some fr =>
    let gray := grayOf fr
    match prev_gray with
    | none => (some gray, none)
    | some p =>
      let qual := qualifying min_contour_area (contoursOf p gray)
      let total := qual.sum
      (some gray,
        if 0 < total then
          some { frame := some fr, motion_area := total, num_contours := qual.length }
        else none)

/-- Run `detect_events` over a finite list of capture results, recording for
each iteration the event emitted (if any). -/
def detect_events (grayOf : Frame → Gray) (contoursOf : Gray → Gray → List Nat)
    (min_contour_area : Nat) (prev_gray : Option Gray) :
    List (Option Frame) → List (Option MotionEvent)
  | [] => []
  | cap :: rest =>
    let s := detect_step grayOf contoursOf min_contour_area prev_gray cap
    s.2 :: detect_events grayOf contoursOf min_contour_area s.1 rest

/-- The grayscale of the last successful capture in a list, if any
(this is exactly what `prev_gray` holds after processing the list). -/
def lastGray (grayOf : Frame → Gray) : List (Option Frame) → Option Gray
  | [] => none
  | cap :: rest =>
    match lastGray grayOf rest with
    | some g => some g
    | none => Option.map grayOf cap

/-- The `prev_gray` value after one capture: a successful read replaces it
with the current grayscale frame, a failed read leaves it alone. -/
def next_gray (grayOf : Frame → Gray) (st : Option Gray) (cap : Option Frame) :
    Option Gray :=
  match cap with
  | none => st
  | some fr => some (grayOf fr)

/-- The `prev_gray` value held at the start of an iteration, given the start
state `st` and the prefix `pre` of captures already processed. -/
def state_before (grayOf : Frame → Gray) (st : Option Gray)
    (pre : List (Option Frame)) : Option Gray :=
  match lastGray grayOf pre with
  | some g => some g
  | none => st

/-! ## Monitor loop (`src/cen/cli/main.py`, `monitor`) -/

/-- The mutable `stats` dictionary of the `monitor` command. -/
structure RunningStats where
  events : Nat
  total_motion_area : Nat
  max_motion_area : Nat
  max_contours : Nat
  anomalies : Nat
deriving Repr, DecidableEq

/-- Initial statistics: every counter zero. -/
def RunningStats.init : RunningStats :=
  { events := 0, total_motion_area := 0, max_motion_area := 0,
    max_contours := 0, anomalies := 0 }

/-- Configuration flags of the `monitor` command that the dispatch loop reads
(times modelled as integer seconds; both options are `int` in the CLI and may
be negative). -/
structure MonitorConfig where
  min_interval_seconds : Int
  anomaly_threshold : Int
deriving Repr, DecidableEq

/-- State threaded through the `for event in detector.detect_events():` loop. -/
structure MonitorState where
  last_sent_at : Int
  stats : RunningStats
deriving Repr, DecidableEq

/-- Initial loop state: `last_sent_at = 0.0` and zeroed stats. -/
def MonitorState.init : MonitorState :=
  { last_sent_at := 0, stats := RunningStats.init }

/-- A notification sent by the loop (`gmail.send_email(...)` call): its send
time, whether it carried the anomaly marker, and the reported metrics. -/
structure Notification where
  sent_at : Int
  is_anomaly : Bool
  motion_area : Nat
  num_contours : Nat
deriving Repr, DecidableEq

/-- One iteration of the `monitor` dispatch loop body for an arriving event.
`t` is the wall-clock reading `time.time()` for this iteration (the send is
modelled as succeeding instantly, so the `time.time()` at the throttle check
and the one stored into `last_sent_at` after the send coincide).  Returns the
new state and the notification, if one was sent (`none` = suppressed by the
throttle gate `time.time() - last_sent_at < max(1, min_interval_seconds)`,
which executes `continue` before any statistics update). -/
def monitor_step (cfg : MonitorConfig) (st : MonitorState) (t : Int)
    (ev : MotionEvent) : MonitorState × Option Notification :=
  if t - st.last_sent_at < max 1 cfg.min_interval_seconds then
    (st, none)
  else
    let ma := ev.motion_area
    let nc := ev.num_contours
    let stats := st.stats
    let stats := { stats with
      events := stats.events + 1,
      total_motion_area := stats.total_motion_area + ma,
      max_motion_area := max stats.max_motion_area ma,
      max_contours := max stats.max_contours nc }
    let is_anomaly : Bool := decide (max 1 cfg.anomaly_threshold ≤ (nc : Int))
    let stats := if is_anomaly then { stats with anomalies := stats.anomalies + 1 } else stats
    ({ last_sent_at := t, stats := stats },
     some { sent_at := t, is_anomaly := is_anomaly, motion_area := ma, num_contours := nc })

/-- Run the dispatch loop over a finite list of `(time.time(), event)` pairs,
recording per iteration whether a notification was sent. -/
def run_monitor (cfg : MonitorConfig) (st : MonitorState) :
    List (Int × MotionEvent) → List (Option Notification)
  | [] => []
  | (t, ev) :: rest =>
    let s := monitor_step cfg st t ev
    s.2 :: run_monitor cfg s.1 rest

/-- The notifications actually sent during a run, in order. -/
def sent_notifications (cfg : MonitorConfig) (st : MonitorState)
    (inputs : List (Int × MotionEvent)) : List Notification :=
  (run_monitor cfg st inputs).filterMap id

/-- The send times of the notifications actually sent during a run. -/
def sent_times (cfg : MonitorConfig) (st : MonitorState)
    (inputs : List (Int × MotionEvent)) : List Int :=
  (sent_notifications cfg st inputs).map Notification.sent_at

/-! ## Summary scheduler (`src/cen/cli/main.py`, `send_summary`) -/

/-- One tick of the `send_summary` background thread on which a send is
attempted (i.e. `hourly_summary` is set).  The Gmail transport outcome is the
oracle `send_result`; the `try: ... except Exception: pass` swallows any send
failure, and the `finally:` block resets every counter.  The second component
is the exception, if any, that propagates out of the tick. -/
def send_summary_tick (send_result : Except String String)
    (stats : RunningStats) : RunningStats × Option String :=
  let propagated : Option String :=
    match send_result with
    | Except.ok _ => none
    | Except.error _ => none
  let stats := { stats with
    events := 0, total_motion_area := 0, max_motion_area := 0,
    max_contours := 0, anomalies := 0 }
  (stats, propagated)

/-! ## Credential lifecycle (`src/cen/core/gmail.py`)

The Google `Credentials` object is modelled by its fields the code reads:
`token`, `refresh_token`, `expired`, `scopes`; `valid` is the google-auth
property `token is not None and not expired`.  Serialization
(`to_json` / `from_authorized_user_info`) is modelled as the identity — the
keyring and the token file each hold an `Option Creds`.  The network
operations `creds.refresh(Request())`, `flow.run_local_server(port=...)` and
the console flow are oracles living in `OAuthWorld`; `keyring.set_password`
raising (no OS secret store) is the flag `keyring_set_fails`. -/

/-- OAuth credential material, as read by `gmail.py`. -/
structure Creds where
  token : Option String
  refresh_token : Option String
  expired : Bool
  scopes : List String
deriving Repr, DecidableEq

/-- google-auth `Credentials.valid`: a token is present and not expired. -/
def Creds.valid (c : Creds) : Bool := c.token.isSome && !c.expired

/-- The two durable storage backends (`--storage keyring|file`). -/
inductive Backend where
  | keyring
  | file
deriving Repr, DecidableEq

/-- Durable storage state: the keyring entry under
`(SERVICE_NAME, TOKEN_USERNAME)` and the contents of `token.json`. -/
structure Store where
  keyring_entry : Option Creds
  token_file : Option Creds
deriving Repr, DecidableEq

/-- External-collaborator behaviour for one `GmailClient` operation. -/
structure OAuthWorld where
  /-- `creds.refresh(Request())`: either the refreshed credential or the
  exception it raises. -/
  refresh : Creds → Except String Creds
  /-- `flow.run_local_server(port=p, ...)`: the credential obtained after a
  successful bind-and-consent on port `p`, or the exception raised
  (`OSError` on a busy port, or any other error — both are caught and the
  loop moves to the next port). -/
  run_local_server : Nat → Except String Creds
  /-- The console (copy/paste) flow: `code_queue.get(timeout=300)` followed by
  `flow.fetch_token(code=code)`, or its failure. -/
  console_flow : Except String Creds
  /-- Whether `keyring.set_password` raises (e.g. no OS secret store). -/
  keyring_set_fails : Bool

/-- The shared refresh clause of the three load helpers:
`if creds and creds.expired and creds.refresh_token: creds.refresh(Request())`.
Its failure is an exception, which each load helper catches. -/
def maybe_refresh (refresh : Creds → Except String Creds) (c : Creds) :
    Except String Creds :=
  if c.expired && c.refresh_token.isSome then refresh c else Except.ok c

/-- `GmailClient._load_credentials_from_keyring`: read the keyring entry,
refresh if expired with a refresh token; any exception yields `None`. -/
def load_credentials_from_keyring (refresh : Creds → Except String Creds)
    (st : Store) : Option Creds :=
  match st.keyring_entry with
  | none => none
  | some c =>
    match maybe_refresh refresh c with
    | Except.ok c2 => some c2
    | Except.error _ => none

/-- `GmailClient._load_credentials_from_file`: same shape over `token.json`. -/
def load_credentials_from_file (refresh : Creds → Except String Creds)
    (st : Store) : Option Creds :=
  match st.token_file with
  | none => none
  | some c =>
    match maybe_refresh refresh c with
    | Except.ok c2 => some c2
    | Except.error _ => none

/-- `GmailClient._load_credentials_from_env`: parse the environment-supplied
token blob (modelled as `env_token`), with the same refresh clause. -/
def load_credentials_from_env (refresh : Creds → Except String Creds)
    (env_token : Option Creds) : Option Creds :=
  match env_token with
  | none => none
  | some c =>
    match maybe_refresh refresh c with
    | Except.ok c2 => some c2
    | Except.error _ => none

/-- `GmailClient._save_credentials_to_file`: write `creds.to_json()` to
`token.json` (modelled infallible). -/
def save_credentials_to_file (st : Store) (c : Creds) : Store :=
  { st with token_file := some c }

/-- `GmailClient._save_credentials_to_keyring`: try `keyring.set_password`;
on any exception fall back to the file backend.  The second component is the
exception, if any, that propagates to the caller. -/
def save_credentials_to_keyring (keyring_set_fails : Bool) (st : Store)
    (c : Creds) : Store × Option String :=
  if keyring_set_fails then
    (save_credentials_to_file st c, none)
  else
    ({ st with keyring_entry := some c }, none)

/-- Save under the selected backend, as done at the end of `login`. -/
def save_to_backend (w : OAuthWorld) (backend : Backend) (st : Store)
    (c : Creds) : Store :=
  match backend with
  | Backend.keyring => (save_credentials_to_keyring w.keyring_set_fails st c).1
  | Backend.file => save_credentials_to_file st c

/-- `ports_to_try` (= `standard_ports`) in `GmailClient.login`. -/
def standard_ports : List Nat := [8080, 8081, 8082, 8090, 9000, 9001, 9090, 9091]

/-- The `RuntimeError` message raised when every candidate port fails
(condensed to its plain-text lines; the second numbered solution instructs
console mode). -/
def localServerErrorMsg : String :=
  "OAuth authentication failed on all ports! Common solutions: " ++
  "1. Configure redirect URIs in Google Cloud Console " ++
  "2. Use console authentication: --console flag " ++
  "3. Ensure ports 8080-9091 are available " ++
  "4. Check firewall settings " ++
  "5. Verify Client ID and Secret are correct"

/-- Whether `pat` occurs at the head of `s` (character lists). -/
def seqAtHead : List Char → List Char → Bool
  | [], _ => true
  | _ :: _, [] => false
  | p :: ps, c :: cs => p == c && seqAtHead ps cs

/-- Whether `pat` occurs anywhere inside `s` (character lists). -/
def containsSeq (pat : List Char) : List Char → Bool
  | [] => seqAtHead pat []
  | c :: cs => seqAtHead pat (c :: cs) || containsSeq pat cs

/-- Whether a message names the `--console` flag (the error text of the
port-scanning loop must instruct the caller to use console mode). -/
def mentionsConsoleFlag (s : String) : Bool :=
  containsSeq "--console".data s.data

/-- The `for port in ports_to_try:` loop: first successful
`run_local_server` wins (`break`); any exception continues to the next
port; `none` if every port fails. -/
def attempt_ports (run : Nat → Except String Creds) :
    List Nat → Option Creds
  | [] => none
  | p :: rest =>
    match run p with
    | Except.ok c => some c
    | Except.error _ => attempt_ports run rest

/-- The interactive consent branch of `GmailClient.login`: console flow when
`use_console`, otherwise the port-scanning local-server flow, which raises
`localServerErrorMsg` when no port works. -/
def authorize (w : OAuthWorld) (use_console : Bool) : Except String Creds :=
  if use_console then w.console_flow
  else
    match attempt_ports w.run_local_server standard_ports with
    | some c => Except.ok c
    | none => Except.error localServerErrorMsg

/-- `GmailClient.login` (credential-lifecycle skeleton): load from the
selected backend unless `force`; if the result is missing or invalid, refresh
in place when expired-with-refresh-token (this call is NOT wrapped in
`try`, so its failure propagates), otherwise run the interactive flow; then
persist under the selected backend.  Returns the credential and the updated
store, or the propagated exception. -/
def login (w : OAuthWorld) (force : Bool) (backend : Backend)
    (use_console : Bool) (st : Store) : Except String (Creds × Store) :=
  let loaded : Option Creds :=
    if force then none
    else
      match backend with
      | Backend.keyring => load_credentials_from_keyring w.refresh st
      | Backend.file => load_credentials_from_file w.refresh st
  match loaded with
  | some c =>
    if c.valid then Except.ok (c, st)
    else
      let fresh : Except String Creds :=
        if c.expired && c.refresh_token.isSome then w.refresh c
        else authorize w use_console
      match fresh with
      | Except.ok c2 => Except.ok (c2, save_to_backend w backend st c2)
      | Except.error e => Except.error e
  | none =>
    match authorize w use_console with
    | Except.ok c2 => Except.ok (c2, save_to_backend w backend st c2)
    | Except.error e => Except.error e

/-- The credential a caller obtains from the environment or the selected
durable backend inside `ensure_logged_in` (env first, then backend). -/
def effective_load (w : OAuthWorld) (env_token : Option Creds)
    (backend : Backend) (st : Store) : Option Creds :=
  match load_credentials_from_env w.refresh env_token with
  | some c => some c
  | none =>
    match backend with
    | Backend.keyring => load_credentials_from_keyring w.refresh st
    | Backend.file => load_credentials_from_file w.refresh st

/-- `GmailClient.ensure_logged_in`: return the in-process cache if valid;
otherwise take the first non-`None` of env-load and backend-load — with no
validity check — and only if both are `None` run `login` (with its defaults
`force=False`, `use_console=False`).  Returns the exposed credential and the
updated store (the result is also what gets written to `_cached_creds`). -/
def ensure_logged_in (w : OAuthWorld) (env_token : Option Creds)
    (backend : Backend) (cached : Option Creds) (st : Store) :
    Except String (Creds × Store) :=
  match cached with
  | some c =>
    if c.valid then Except.ok (c, st)
    else ensure_fresh w env_token backend st
  | none => ensure_fresh w env_token backend st
where
  /-- The body after the cache check. -/
  ensure_fresh (w : OAuthWorld) (env_token : Option Creds)
      (backend : Backend) (st : Store) : Except String (Creds × Store) :=
    match effective_load w env_token backend st with
    | some c => Except.ok (c, st)
    | none => login w false backend false st

/-- The credential `GmailClient.send_email` uses:
`self._cached_creds or self.ensure_logged_in()` — a non-`None` cache is used
unconditionally (no validity check), else `ensure_logged_in` with its default
backend (`keyring`). -/
def send_email_creds (w : OAuthWorld) (env_token : Option Creds)
    (cached : Option Creds) (st : Store) : Except String (Creds × Store) :=
  match cached with
  | some c => Except.ok (c, st)
  | none => ensure_logged_in w env_token Backend.keyring none st

/-! ## Helper lemmas -/

lemma monitor_step_suppressed (cfg : MonitorConfig) (st : MonitorState)
    (t : Int) (ev : MotionEvent)
    (h : t - st.last_sent_at < max 1 cfg.min_interval_seconds) :
    monitor_step cfg st t ev = (st, none) := by
  unfold monitor_step
  rw [if_pos h]

lemma monitor_step_sent (cfg : MonitorConfig) (st : MonitorState)
    (t : Int) (ev : MotionEvent)
    (h : ¬ t - st.last_sent_at < max 1 cfg.min_interval_seconds) :
    (monitor_step cfg st t ev).1.last_sent_at = t ∧
    (monitor_step cfg st t ev).2 = some
      { sent_at := t,
        is_anomaly := decide (max 1 cfg.anomaly_threshold ≤ (ev.num_contours : Int)),
        motion_area := ev.motion_area, num_contours := ev.num_contours } := by
  unfold monitor_step
  rw [if_neg h]
  exact ⟨rfl, rfl⟩

lemma sent_times_nil (cfg : MonitorConfig) (st : MonitorState) :
    sent_times cfg st [] = [] := rfl

lemma sent_times_chain (cfg : MonitorConfig) :
    ∀ (inputs : List (Int × MotionEvent)) (st : MonitorState),
    List.Chain' (fun a b => a + max 1 cfg.min_interval_seconds ≤ b)
      (st.last_sent_at :: sent_times cfg st inputs) := by
  intro inputs
  induction inputs with
  | nil =>
    intro st
    simp [sent_times_nil]
  | cons head rest ih =>
    intro st
    obtain ⟨t, ev⟩ := head
    by_cases hg : t - st.last_sent_at < max 1 cfg.min_interval_seconds
    · have hstep := monitor_step_suppressed cfg st t ev hg
      have : sent_times cfg st ((t, ev) :: rest) = sent_times cfg st rest := by
        simp [sent_times, sent_notifications, run_monitor, hstep]
      rw [this]
      exact ih st
    · have hstep := monitor_step_sent cfg st t ev hg
      have hlist : sent_times cfg st ((t, ev) :: rest) =
          t :: sent_times cfg (monitor_step cfg st t ev).1 rest := by
        simp [sent_times, sent_notifications, run_monitor, hstep.2]
      rw [hlist]
      refine List.Chain'.cons ?_ ?_
      · omega
      · have := ih (monitor_step cfg st t ev).1
        rwa [hstep.1] at this

lemma detect_step_fst (grayOf : Frame → Gray)
    (contoursOf : Gray → Gray → List Nat) (minA : Nat)
    (st : Option Gray) (cap : Option Frame) :
    (detect_step grayOf contoursOf minA st cap).1 = next_gray grayOf st cap := by
  cases cap <;> cases st <;> rfl

lemma state_before_none (grayOf : Frame → Gray) (pre : List (Option Frame)) :
    state_before grayOf none pre = lastGray grayOf pre := by
  unfold state_before
  cases lastGray grayOf pre <;> rfl

lemma state_before_cons (grayOf : Frame → Gray) (st : Option Gray)
    (cap : Option Frame) (pre : List (Option Frame)) :
    state_before grayOf st (cap :: pre) =
      state_before grayOf (next_gray grayOf st cap) pre := by
  unfold state_before next_gray
  cases h : lastGray grayOf pre with
  | some g =>
    have : lastGray grayOf (cap :: pre) = some g := by
      unfold lastGray
      rw [h]
    rw [this]
  | none =>
    have : lastGray grayOf (cap :: pre) = Option.map grayOf cap := by
      unfold lastGray
      rw [h]
    rw [this]
    cases cap <;> rfl

lemma detect_events_get? (grayOf : Frame → Gray)
    (contoursOf : Gray → Gray → List Nat) (minA : Nat) :
    ∀ (caps : List (Option Frame)) (st : Option Gray) (i : Nat),
    (detect_events grayOf contoursOf minA st caps).get? i =
      (caps.get? i).map (fun cap =>
        (detect_step grayOf contoursOf minA
          (state_before grayOf st (caps.take i)) cap).2) := by
  intro caps
  induction caps with
  | nil =>
    intro st i
    simp [detect_events]
  | cons cap rest ih =>
    intro st i
    cases i with
    | zero => rfl
    | succ i =>
      have h1 : (detect_events grayOf contoursOf minA st (cap :: rest)).get? (i + 1)
          = (detect_events grayOf contoursOf minA
              (detect_step grayOf contoursOf minA st cap).1 rest).get? i := rfl
      rw [h1, ih, detect_step_fst, List.take_succ_cons, state_before_cons]
      rfl

lemma detect_events_first_some (grayOf : Frame → Gray)
    (contoursOf : Gray → Gray → List Nat) (minA : Nat) :
    ∀ (i : Nat) (caps : List (Option Frame)) (fr : Frame),
    (∀ j, j < i → caps.get? j = some none) →
    caps.get? i = some (some fr) →
    (detect_events grayOf contoursOf minA none caps).get? i = some none := by
  intro i
  induction i with
  | zero =>
    intro caps fr _ hi
    cases caps with
    | nil => simp at hi
    | cons c rest =>
      simp at hi
      subst hi
      rfl
  | succ i ih =>
    intro caps fr hj hi
    cases caps with
    | nil => simp at hi
    | cons c rest =>
      have hc : c = none := by
        have := hj 0 (by omega)
        simpa using this
      subst hc
      have h1 : (detect_events grayOf contoursOf minA none (none :: rest)).get? (i + 1)
          = (detect_events grayOf contoursOf minA none rest).get? i := rfl
      rw [h1]
      exact ih rest fr (fun j hjlt => hj (j + 1) (by omega)) hi

lemma attempt_ports_none (run : Nat → Except String Creds) :
    ∀ ports : List Nat, (∀ p ∈ ports, (run p).toOption = none) →
    attempt_ports run ports = none := by
  intro ports
  induction ports with
  | nil => intro _; rfl
  | cons p rest ih =>
    intro h
    have hp : (run p).toOption = none := h p (by simp)
    cases hrun : run p with
    | ok c =>
      rw [hrun] at hp
      simp [Except.toOption] at hp
    | error e =>
      simp only [attempt_ports, hrun]
      exact ih (fun q hq => h q (by simp [hq]))

lemma attempt_ports_first (run : Nat → Except String Creds) :
    ∀ (ports : List Nat) (i : Nat) (p : Nat) (c : Creds),
    ports.get? i = some p →
    (∀ j, j < i → ∀ q, ports.get? j = some q → (run q).toOption = none) →
    run p = Except.ok c →
    attempt_ports run ports = some c := by
  intro ports
  induction ports with
  | nil =>
    intro i p c hi
    simp at hi
  | cons q rest ih =>
    intro i p c hi hj hrun
    cases i with
    | zero =>
      simp at hi
      subst hi
      simp only [attempt_ports, hrun]
    | succ i =>
      have hq : (run q).toOption = none := hj 0 (by omega) q rfl
      cases hrq : run q with
      | ok c2 =>
        rw [hrq] at hq
        simp [Except.toOption] at hq
      | error e =>
        simp only [attempt_ports, hrq]
        exact ih i p c hi (fun j hjlt q' hq' => hj (j + 1) (by omega) q' hq') hrun

/-! ## Claims -/

/-- **C1.** For every sequence of capture results, an iteration of
`detect_events` emits a `MotionEvent` iff the capture succeeded, a previous
grayscale frame was held (the grayscale of the last earlier successful
capture), and the sum of the contour areas at or above the sensitivity
threshold is strictly positive; and the very first sampled (successfully
captured) frame never yields an event. -/
theorem c1_motion_event_iff (grayOf : Frame → Gray)
    (contoursOf : Gray → Gray → List Nat) (minA : Nat)
    (caps : List (Option Frame)) :
    (∀ i : Nat,
      (∃ ev, (detect_events grayOf contoursOf minA none caps).get? i
          = some (some ev)) ↔
      (∃ fr p, caps.get? i = some (some fr) ∧
        lastGray grayOf (caps.take i) = some p ∧
        0 < (qualifying minA (contoursOf p (grayOf fr))).sum))
    ∧ (∀ (i : Nat) (fr : Frame),
      (∀ j, j < i → caps.get? j = some none) →
      caps.get? i = some (some fr) →
      (detect_events grayOf contoursOf minA none caps).get? i = some none) := by
  constructor
  · intro i
    rw [detect_events_get? grayOf contoursOf minA caps none i,
      state_before_none]
    cases hcap : caps.get? i with
    | none => simp
    | some cap =>
      cases cap with
      | none => simp [detect_step]
      | some fr =>
        cases hlg : lastGray grayOf (caps.take i) with
        | none => simp [detect_step]
        | some p =>
          by_cases hsum : 0 < (qualifying minA (contoursOf p (grayOf fr))).sum
          · simp [detect_step, hsum]
          · simp [detect_step, hsum]
  · exact fun i fr hj hi =>
      detect_events_first_some grayOf contoursOf minA i caps fr hj hi

/-- Witness for **C1**: over captures `[failure, frame 0, frame 1]` the
hypotheses of the first-sampled-frame clause hold at iteration 1 (the first
successful capture), and that iteration indeed emits nothing. -/
theorem c1_motion_event_iff_witness :
    (∀ j, j < 1 → ([none, some 0, some 1] : List (Option Frame)).get? j
        = some none) ∧
    (detect_events id (fun _ _ => [600]) 500 none
        [none, some 0, some 1]).get? 1 = some none := by
  constructor
  · intro j hj
    have hz : j = 0 := by omega
    subst hz
    rfl
  · exact (c1_motion_event_iff id (fun _ _ => [600]) 500
      [none, some 0, some 1]).2 1 0
      (fun j hj => by
        have hz : j = 0 := by omega
        subst hz
        rfl)
      rfl

/-- **C2.** In the monitoring loop, any two consecutive sent notifications are
at least `min_interval_seconds` apart; a suppressed event leaves the loop
state — `RunningStats` included — unchanged; and with
`min_interval_seconds = 60` and events arriving at relative times
t = 0, 10, 70 (absolute times `T0, T0+10, T0+70` for any wall-clock origin
`T0 ≥ 60`), notifications are sent for the first and third events only. -/
theorem c2_throttle_invariant :
    (∀ (cfg : MonitorConfig) (inputs : List (Int × MotionEvent)),
      List.Chain' (fun a b => cfg.min_interval_seconds ≤ b - a)
        (sent_times cfg MonitorState.init inputs))
    ∧ (∀ (cfg : MonitorConfig) (st : MonitorState) (t : Int) (ev : MotionEvent),
      (monitor_step cfg st t ev).2 = none →
      (monitor_step cfg st t ev).1.stats = st.stats)
    ∧ (∀ (T0 : Int), 60 ≤ T0 → ∀ (th : Int) (e1 e2 e3 : MotionEvent),
      (run_monitor ⟨60, th⟩ MonitorState.init
          [(T0, e1), (T0 + 10, e2), (T0 + 70, e3)]).map Option.isSome
        = [true, false, true]) := by
  refine ⟨?_, ?_, ?_⟩
  · intro cfg inputs
    have h := (sent_times_chain cfg inputs MonitorState.init).tail
    refine h.imp ?_
    intro a b hab
    have h1 : (1 : Int) ≤ max 1 cfg.min_interval_seconds := le_max_left _ _
    have h2 : cfg.min_interval_seconds ≤ max 1 cfg.min_interval_seconds :=
      le_max_right _ _
    omega
  · intro cfg st t ev h
    by_cases hg : t - st.last_sent_at < max 1 cfg.min_interval_seconds
    · rw [monitor_step_suppressed cfg st t ev hg]
    · rw [(monitor_step_sent cfg st t ev hg).2] at h
      simp at h
  · intro T0 hT0 th e1 e2 e3
    have hg1 : ¬ T0 - (MonitorState.init).last_sent_at <
        max 1 (MonitorConfig.mk 60 th).min_interval_seconds := by
      simp [MonitorState.init]
      omega
    have h1 := monitor_step_sent ⟨60, th⟩ MonitorState.init T0 e1 hg1
    have hg2 : (T0 + 10) -
        (monitor_step ⟨60, th⟩ MonitorState.init T0 e1).1.last_sent_at <
        max 1 (MonitorConfig.mk 60 th).min_interval_seconds := by
      rw [h1.1]
      simp
    have h2 := monitor_step_suppressed ⟨60, th⟩
      (monitor_step ⟨60, th⟩ MonitorState.init T0 e1).1 (T0 + 10) e2 hg2
    have hg3 : ¬ (T0 + 70) -
        (monitor_step ⟨60, th⟩ MonitorState.init T0 e1).1.last_sent_at <
        max 1 (MonitorConfig.mk 60 th).min_interval_seconds := by
      rw [h1.1]
      simp
    have h3 := monitor_step_sent ⟨60, th⟩
      (monitor_step ⟨60, th⟩ MonitorState.init T0 e1).1 (T0 + 70) e3 hg3
    simp [run_monitor, h2, h1.2, h3.2]

/-- Witness for **C2**: the t = 0, 10, 70 scenario at wall-clock origin 100
with `min_interval_seconds = 60` sends exactly the first and third
notifications. -/
theorem c2_throttle_invariant_witness :
    (60 : Int) ≤ 100 ∧
    (run_monitor ⟨60, 7⟩ MonitorState.init
        [(100, { frame := none, motion_area := 600, num_contours := 2 }),
         (100 + 10, { frame := none, motion_area := 600, num_contours := 2 }),
         (100 + 70, { frame := none, motion_area := 600, num_contours := 2 })]
      ).map Option.isSome = [true, false, true] :=
  ⟨by norm_num,
    c2_throttle_invariant.2.2 100 (by norm_num) 7
      { frame := none, motion_area := 600, num_contours := 2 }
      { frame := none, motion_area := 600, num_contours := 2 }
      { frame := none, motion_area := 600, num_contours := 2 }⟩

/-- **C10.** The monitor's throttle gate suppresses an event exactly when
fewer than `max(1, min_interval_seconds)` seconds have elapsed since the
last send, so even for a zero or negative configured interval any two
consecutive sent notifications are at least one second apart. -/
theorem c10_floor_one_second :
    (∀ (cfg : MonitorConfig) (st : MonitorState) (t : Int) (ev : MotionEvent),
      ((monitor_step cfg st t ev).2 = none ↔
        t - st.last_sent_at < max 1 cfg.min_interval_seconds))
    ∧ (∀ (cfg : MonitorConfig) (inputs : List (Int × MotionEvent)),
      List.Chain' (fun a b => a + 1 ≤ b)
        (sent_times cfg MonitorState.init inputs)) := by
  constructor
  · intro cfg st t ev
    constructor
    · intro h
      by_contra hg
      rw [(monitor_step_sent cfg st t ev hg).2] at h
      simp at h
    · intro hg
      rw [monitor_step_suppressed cfg st t ev hg]
  · intro cfg inputs
    have h := (sent_times_chain cfg inputs MonitorState.init).tail
    refine h.imp ?_
    intro a b hab
    have h1 : (1 : Int) ≤ max 1 cfg.min_interval_seconds := le_max_left _ _
    omega

/-- Witness for **C10**: with `min_interval_seconds = -5`, an event arriving
at the instant of the previous send is still suppressed (the gate floor is
one second). -/
theorem c10_floor_one_second_witness :
    ((100 : Int) - 100 < max 1 (-5 : Int)) ∧
    (monitor_step ⟨-5, 5⟩ (MonitorState.mk 100 RunningStats.init) 100
        { frame := none, motion_area := 5, num_contours := 1 }).2 = none :=
  ⟨by decide,
    (c10_floor_one_second.1 ⟨-5, 5⟩ (MonitorState.mk 100 RunningStats.init) 100
      { frame := none, motion_area := 5, num_contours := 1 }).mpr (by decide)⟩

/-- **C4.** On every summary tick that attempts a send, the outcome of the
Gmail transport is swallowed (`except Exception: pass`), no exception
propagates out of the tick, and the `finally:` block resets every
`RunningStats` counter to zero whether the send succeeded or failed. -/
theorem c4_summary_reset_swallow :
    ∀ (send_result : Except String String) (stats : RunningStats),
      send_summary_tick send_result stats = (RunningStats.init, none) := by
  intro send_result stats
  cases send_result <;> rfl

/-- **C8.** Per sampling iteration with a stored previous frame and a
successful capture, the emitted event (when one is emitted) carries
`motion_area` equal to the sum of exactly the contour areas at or above the
sensitivity threshold and `num_contours` equal to their count; with
sensitivity 500 and contour areas `[600, 700, 100]` the event has
`motion_area = 1300` and `num_contours = 2`. -/
theorem c8_motion_metrics :
    (∀ (grayOf : Frame → Gray) (contoursOf : Gray → Gray → List Nat)
      (minA : Nat) (p : Gray) (fr : Frame),
      (detect_step grayOf contoursOf minA (some p) (some fr)).2 =
        (if 0 < (qualifying minA (contoursOf p (grayOf fr))).sum then
          some { frame := some fr,
                 motion_area := (qualifying minA (contoursOf p (grayOf fr))).sum,
                 num_contours := (qualifying minA (contoursOf p (grayOf fr))).length }
         else none))
    ∧ (detect_step id (fun _ _ => [600, 700, 100]) 500 (some 0) (some 1)).2 =
        some { frame := some 1, motion_area := 1300, num_contours := 2 } := by
  constructor
  · intro grayOf contoursOf minA p fr
    rfl
  · rfl

/-- **C3.** A non-suppressed event is classified anomalous iff
`num_contours >= max(1, anomaly_threshold)`; threshold 0 behaves exactly as
threshold 1; and with `anomaly_threshold = 5` a dispatched event with
`num_contours = 5` is flagged anomalous while one with `num_contours = 4`
is not. -/
theorem c3_anomaly_classification :
    (∀ (cfg : MonitorConfig) (st : MonitorState) (t : Int) (ev : MotionEvent)
      (n : Notification),
      (monitor_step cfg st t ev).2 = some n →
      (n.is_anomaly = true ↔ max 1 cfg.anomaly_threshold ≤ (ev.num_contours : Int)))
    ∧ (∀ (mi : Int) (st : MonitorState) (t : Int) (ev : MotionEvent),
      monitor_step ⟨mi, 0⟩ st t ev = monitor_step ⟨mi, 1⟩ st t ev)
    ∧ ((monitor_step ⟨60, 5⟩ MonitorState.init 100
          { frame := none, motion_area := 600, num_contours := 5 }).2.map
        Notification.is_anomaly = some true)
    ∧ ((monitor_step ⟨60, 5⟩ MonitorState.init 100
          { frame := none, motion_area := 600, num_contours := 4 }).2.map
        Notification.is_anomaly = some false) := by
  refine ⟨?_, ?_, ?_, ?_⟩
  · intro cfg st t ev n h
    by_cases hg : t - st.last_sent_at < max 1 cfg.min_interval_seconds
    · rw [monitor_step_suppressed cfg st t ev hg] at h
      simp at h
    · rw [(monitor_step_sent cfg st t ev hg).2] at h
      cases h
      simp
  · intro mi st t ev
    have h : max (1 : Int) 0 = max 1 1 := by decide
    unfold monitor_step
    simp only [h]
  · rfl
  · rfl

/-- Witness for **C3**: the dispatched `num_contours = 5` event at threshold 5
is flagged anomalous. -/
theorem c3_anomaly_classification_witness :
    (monitor_step ⟨60, 5⟩ MonitorState.init 100
        { frame := none, motion_area := 600, num_contours := 5 }).2
      = some { sent_at := 100, is_anomaly := true, motion_area := 600,
               num_contours := 5 } ∧
    (Notification.is_anomaly
        { sent_at := 100, is_anomaly := true, motion_area := 600,
          num_contours := 5 } = true ↔
      max 1 (5 : Int) ≤ ((5 : Nat) : Int)) :=
  ⟨rfl,
    c3_anomaly_classification.1 ⟨60, 5⟩ MonitorState.init 100
      { frame := none, motion_area := 600, num_contours := 5 }
      { sent_at := 100, is_anomaly := true, motion_area := 600,
        num_contours := 5 } rfl⟩

/-- **C5.** When `keyring.set_password` raises, the save falls back silently
to the file backend: no exception propagates to the caller, `token.json`
receives the credential, the keyring entry is untouched, and a subsequent
load from the file backend returns the saved credential (it is returned
unchanged whenever it is not expired, so no refresh clause fires). -/
theorem c5_keyring_save_fallback :
    ∀ (st : Store) (c : Creds),
      (save_credentials_to_keyring true st c).2 = none ∧
      (save_credentials_to_keyring true st c).1.token_file = some c ∧
      (save_credentials_to_keyring true st c).1.keyring_entry = st.keyring_entry ∧
      (c.expired = false →
        ∀ refresh : Creds → Except String Creds,
          load_credentials_from_file refresh
            (save_credentials_to_keyring true st c).1 = some c) := by
  intro st c
  refine ⟨rfl, rfl, rfl, ?_⟩
  intro hexp refresh
  simp [save_credentials_to_keyring, save_credentials_to_file,
    load_credentials_from_file, maybe_refresh, hexp]

/-- Witness for **C5**: a concrete fresh credential saved while the keyring
is unavailable is found again by a file-backend load. -/
theorem c5_keyring_save_fallback_witness :
    (Creds.mk (some "tok") (some "ref") false ["gmail.send"]).expired = false ∧
    load_credentials_from_file (fun _ => Except.error "never")
      (save_credentials_to_keyring true (Store.mk none none)
        (Creds.mk (some "tok") (some "ref") false ["gmail.send"])).1
      = some (Creds.mk (some "tok") (some "ref") false ["gmail.send"]) :=
  ⟨rfl,
    (c5_keyring_save_fallback (Store.mk none none)
      (Creds.mk (some "tok") (some "ref") false ["gmail.send"])).2.2.2 rfl
      (fun _ => Except.error "never")⟩

/-- **C6.** For a cached credential that is expired and carries a refresh
token, the load helper attempts a silent refresh and its result is exactly
the refresh outcome — the refreshed credential on success, `None` (treated
as absent) on failure, with no exception propagating; after such a failure
`login` runs the full interactive authorization flow; and for a credential
without a refresh token no refresh is attempted — the credential is returned
as-is for every refresh oracle. -/
theorem c6_refresh_policy :
    ∀ (w : OAuthWorld) (st : Store) (c : Creds),
      st.keyring_entry = some c →
      ((c.expired = true → c.refresh_token.isSome = true →
        load_credentials_from_keyring w.refresh st = (w.refresh c).toOption ∧
        (∀ e, w.refresh c = Except.error e → ∀ uc : Bool,
          login w false Backend.keyring uc st =
            (match authorize w uc with
             | Except.ok c2 =>
                 Except.ok (c2, save_to_backend w Backend.keyring st c2)
             | Except.error e2 => Except.error e2)))
      ∧ (c.refresh_token = none →
          load_credentials_from_keyring w.refresh st = some c)) := by
  intro w st c hst
  constructor
  · intro hexp hrt
    have hload : load_credentials_from_keyring w.refresh st
        = (w.refresh c).toOption := by
      simp only [load_credentials_from_keyring, hst, maybe_refresh, hexp, hrt,
        Bool.and_self, if_pos]
      cases w.refresh c <;> rfl
    refine ⟨hload, ?_⟩
    intro e he uc
    have hnone : load_credentials_from_keyring w.refresh st = none := by
      rw [hload, he]
      rfl
    cases hauth : authorize w uc <;>
      simp [login, hnone, hauth]
  · intro hrt
    simp [load_credentials_from_keyring, hst, maybe_refresh, hrt]

/-- Witness for **C6**: a concrete expired credential with a refresh token
whose refresh raises is loaded as `None`. -/
theorem c6_refresh_policy_witness :
    (Store.mk (some (Creds.mk (some "t") (some "r") true [])) none).keyring_entry
      = some (Creds.mk (some "t") (some "r") true []) ∧
    (Creds.mk (some "t") (some "r") true []).expired = true ∧
    load_credentials_from_keyring (fun _ => Except.error "boom")
      (Store.mk (some (Creds.mk (some "t") (some "r") true [])) none) = none :=
  ⟨rfl, rfl,
    (((c6_refresh_policy
      { refresh := fun _ => Except.error "boom",
        run_local_server := fun _ => Except.error "busy",
        console_flow := Except.error "cancelled",
        keyring_set_fails := false }
      (Store.mk (some (Creds.mk (some "t") (some "r") true [])) none)
      (Creds.mk (some "t") (some "r") true []) rfl).1 rfl rfl).1).trans rfl⟩

/-- **C9.** In `local_server` mode the fixed ordered candidate ports are tried
in order and the first port on which `run_local_server` succeeds supplies
the credential; if every candidate port fails the operation raises the
configuration error message — which instructs the caller to use console
mode — and no credential is produced. -/
theorem c9_local_server_port_scan :
    (∀ w : OAuthWorld,
      (∀ p ∈ standard_ports, (w.run_local_server p).toOption = none) →
      authorize w false = Except.error localServerErrorMsg)
    ∧ (∀ (w : OAuthWorld) (i : Nat) (p : Nat) (c : Creds),
      standard_ports.get? i = some p →
      (∀ j, j < i → ∀ q, standard_ports.get? j = some q →
        (w.run_local_server q).toOption = none) →
      w.run_local_server p = Except.ok c →
      authorize w false = Except.ok c)
    ∧ mentionsConsoleFlag localServerErrorMsg = true := by
  refine ⟨?_, ?_, ?_⟩
  · intro w h
    have hap := attempt_ports_none w.run_local_server standard_ports h
    simp [authorize, hap]
  · intro w i p c hi hj hrun
    have hap := attempt_ports_first w.run_local_server standard_ports i p c
      hi hj hrun
    simp [authorize, hap]
  · decide

/-- Witness for **C9**: with every port busy, local-server authorization
raises the console-instructing configuration error. -/
theorem c9_local_server_port_scan_witness :
    (∀ p ∈ standard_ports,
      ((fun _ => (Except.error "busy" : Except String Creds)) p).toOption
        = none) ∧
    authorize
      { refresh := fun _ => Except.error "boom",
        run_local_server := fun _ => Except.error "busy",
        console_flow := Except.error "cancelled",
        keyring_set_fails := false } false
      = Except.error localServerErrorMsg :=
  ⟨fun _ _ => rfl,
    c9_local_server_port_scan.1
      { refresh := fun _ => Except.error "boom",
        run_local_server := fun _ => Except.error "busy",
        console_flow := Except.error "cancelled",
        keyring_set_fails := false }
      (fun _ _ => rfl)⟩

/-- **C7 counterexample.** An expired credential without a refresh token
stored in `token.json` is handed to the caller by `ensure_logged_in` exactly
as stored — no validation, no refresh, no interactive authorization (every
interactive oracle here fails, yet the call succeeds) — and `send_email`
uses a non-`None` cached credential unconditionally.  So an expired
credential *is* exposed to the mail sender, refuting the claimed
invariant. -/
theorem c7_counterexample :
    ensure_logged_in
      { refresh := fun _ => Except.error "refresh failed",
        run_local_server := fun _ => Except.error "port busy",
        console_flow := Except.error "no console",
        keyring_set_fails := false }
      none Backend.file none
      (Store.mk none
        (some (Creds.mk (some "tok") none true [])))
      = Except.ok (Creds.mk (some "tok") none true [],
          Store.mk none (some (Creds.mk (some "tok") none true []))) ∧
    send_email_creds
      { refresh := fun _ => Except.error "refresh failed",
        run_local_server := fun _ => Except.error "port busy",
        console_flow := Except.error "no console",
        keyring_set_fails := false }
      none (some (Creds.mk (some "tok") none true []))
      (Store.mk none none)
      = Except.ok (Creds.mk (some "tok") none true [], Store.mk none none) ∧
    Creds.valid (Creds.mk (some "tok") none true []) = false :=
  ⟨rfl, rfl, rfl⟩

/-- **C7 (amended).** The in-process cache is exposed only when valid, but a
credential loaded from the environment or the durable backend is exposed to
callers with *no* validity check — expired or not — and full authorization
runs only when no credential loads at all; `send_email` likewise uses a
non-`None` cached credential unconditionally. -/
theorem c7_amended_validity :
    (∀ (w : OAuthWorld) (env_token : Option Creds) (backend : Backend)
      (st : Store) (c : Creds), c.valid = true →
      ensure_logged_in w env_token backend (some c) st = Except.ok (c, st))
    ∧ (∀ (w : OAuthWorld) (env_token : Option Creds) (backend : Backend)
      (st : Store) (c : Creds),
      effective_load w env_token backend st = some c →
      ensure_logged_in w env_token backend none st = Except.ok (c, st))
    ∧ (∀ (w : OAuthWorld) (env_token : Option Creds) (backend : Backend)
      (st : Store) (cc c : Creds), cc.valid = false →
      effective_load w env_token backend st = some c →
      ensure_logged_in w env_token backend (some cc) st = Except.ok (c, st))
    ∧ (∀ (w : OAuthWorld) (env_token : Option Creds) (backend : Backend)
      (st : Store),
      effective_load w env_token backend st = none →
      ensure_logged_in w env_token backend none st =
        login w false backend false st)
    ∧ (∀ (w : OAuthWorld) (env_token : Option Creds) (st : Store) (c : Creds),
      send_email_creds w env_token (some c) st = Except.ok (c, st)) := by
  refine ⟨?_, ?_, ?_, ?_, ?_⟩
  · intro w env_token backend st c hv
    simp [ensure_logged_in, hv]
  · intro w env_token backend st c hl
    simp [ensure_logged_in, ensure_logged_in.ensure_fresh, hl]
  · intro w env_token backend st cc c hv hl
    simp [ensure_logged_in, ensure_logged_in.ensure_fresh, hv, hl]
  · intro w env_token backend st hl
    simp [ensure_logged_in, ensure_logged_in.ensure_fresh, hl]
  · intro w env_token st c
    rfl

/-- Witness for **C7 (amended)**: a concrete valid cached credential is
returned unchanged. -/
theorem c7_amended_validity_witness :
    Creds.valid (Creds.mk (some "t") none false []) = true ∧
    ensure_logged_in
      { refresh := fun _ => Except.error "boom",
        run_local_server := fun _ => Except.error "busy",
        console_flow := Except.error "cancelled",
        keyring_set_fails := false }
      none Backend.keyring (some (Creds.mk (some "t") none false []))
      (Store.mk none none)
      = Except.ok (Creds.mk (some "t") none false [], Store.mk none none) :=
  ⟨rfl,
    c7_amended_validity.1
      { refresh := fun _ => Except.error "boom",
        run_local_server := fun _ => Except.error "busy",
        console_flow := Except.error "cancelled",
        keyring_set_fails := false }
      none Backend.keyring (Store.mk none none)
      (Creds.mk (some "t") none false []) rfl⟩

end CEN
